import Mathlib

/-!
Verification of the instance/resource lifecycle manager of cgcloud
(`cghub/cloud/box.py`) against its natural-language specification.

The Python code is shallowly embedded as follows:

* Polling loops (`Box.__wait_transition`, `Box.__wait_hostname_assigned`,
  `Box.__wait_ssh_port_open`, `Box.__wait_ssh_working`) become structurally
  recursive functions over a finite trace of the values the loop would observe
  on successive re-fetches.  A result of `none` means the trace was exhausted
  while the loop was still polling (i.e. the loop would still be blocking);
  `some` carries the outcome together with the number of polling cycles
  (sleeps, or connection timeouts for the TCP stage) the loop blocked through.
* The EC2 control plane is a record of instances and volumes (`EC2`); every
  provider API call an operation issues is recorded in a `CallLog` so that
  "no provider call is made" is a provable statement.
* Exceptions become explicit `BoxErr` values; an operation that can mutate
  `self` returns its post-state even when it raises, so that atomicity-on-error
  claims are expressible.
* Python's `RuntimeError` messages are mapped to distinct `BoxErr`
  constructors, one per raise site.
-/

namespace CGCloud

/-- The provider API calls issued by `Box` operations (`boto` connection calls
in the source).  Polling re-fetches (`resource.update()`) are represented by the
observation traces instead. -/
inductive ProviderCall where
  | runInstances
  | addTag (key value : String)
  | getAllInstances
  | startInstances
  | stopInstances
  | terminateInstances
  | getAllVolumes
  | createVolume
  | attachVolume
  | createImage
  deriving Repr, DecidableEq

abbrev CallLog := List ProviderCall

/-- Mirror of `boto.ec2.instance.Instance` restricted to the attributes
`box.py` reads: `id`, `state`, `launch_time`, the `Name` tag and
`public_dns_name`.  Launch times are modelled as naturals (the source sorts
ISO-8601 strings, whose lexicographic order is chronological). -/
structure Instance where
  id : String
  state : String
  launch_time : Nat
  name_tag : Option String
  public_dns_name : String
  deriving Repr, DecidableEq

/-- Mirror of `boto.ec2.volume.Volume` restricted to the attributes read by
`box.py`: `id`, `status`, `zone`, the `Name` tag and `size`. -/
structure Volume where
  id : String
  status : String
  zone : String
  name_tag : Option String
  size : Nat
  deriving Repr, DecidableEq

/-- The slice of `cghub.cloud.environment.Environment` that `box.py` reads:
the region, the availability zone and the namespace used to derive absolute
names. -/
structure Env where
  region : String
  availability_zone : String
  ns : String
  deriving Repr, DecidableEq

/-- Modelled from the spec: `Environment.absolute_name` lives in
`environment.py`, which is not part of the sources.  Per §6 the absolute
resource name is the environment namespace joined to the relative name, and
§4.4 re-resolves an already-absolutized name, so a name that already carries
the namespace prefix is returned unchanged.  (The prefix test is phrased over
the character lists so that it evaluates inside the kernel.) -/
def Env.absolute_name (e : Env) (name : String) : String :=
  if (e.ns ++ "-").data.isPrefixOf name.data then name else e.ns ++ "-" ++ name

theorem isPrefixOf_append_self (l r : List Char) : l.isPrefixOf (l ++ r) = true := by
  induction l with
  | nil => simp
  | cons a t ih => simp [ih]

/-- Absolutizing a name is idempotent: an absolute name carries the namespace
prefix and is therefore returned unchanged by a second application.
`Box.get_or_create_volume` relies on this when it hands an already-absolute
name to `Box.get_attachable_volume`. -/
theorem Env.absolute_name_idem (e : Env) (name : String) :
    e.absolute_name (e.absolute_name name) = e.absolute_name name := by
  by_cases h : (e.ns ++ "-").data.isPrefixOf name.data = true
  · have h1 : e.absolute_name name = name := by
      unfold Env.absolute_name
      rw [if_pos h]
    rw [h1]
    exact h1
  · have h2 : e.absolute_name name = e.ns ++ "-" ++ name := by
      unfold Env.absolute_name
      rw [if_neg h]
    have hp : (e.ns ++ "-").data.isPrefixOf (e.ns ++ "-" ++ name).data = true := by
      rw [String.data_append]
      exact isPrefixOf_append_self _ _
    have h3 : e.absolute_name (e.ns ++ "-" ++ name) = e.ns ++ "-" ++ name := by
      unfold Env.absolute_name
      rw [if_pos hp]
    rw [h2, h3]

/-- The mutable identity fields of `Box`: the environment, the role name
(computed from the class name in the source), and the `instance_id` /
`host_name` bindings, both absent until created/adopted resp. ready. -/
structure Box where
  env : Env
  role : String
  instance_id : Option String
  host_name : Option String
  deriving Repr, DecidableEq

/-- The EC2 control-plane state visible to `box.py`: the instances and volumes
the `describe`/`list` calls can return. -/
structure EC2 where
  instances : List Instance
  volumes : List Volume
  deriving Repr, DecidableEq

/-- The exceptions `box.py` raises, one constructor per raise site.  In the
source all of these are `RuntimeError` (or `KeyboardInterrupt`) with distinct
messages; the spec's §7 taxonomy maps `notSet`/`alreadyBound` to
PreconditionError, `unexpectedState` to UnexpectedStateError,
`ambiguousInstance`/`moreThanOneVolume` to AmbiguityError, `noInstance` to
NotFoundError, `volumeNotAvailable`/`volumeZoneMismatch` to PlacementError and
`volumeNotAttached` to PostconditionError. -/
inductive BoxErr where
  | notSet
  | alreadyBound
  | noInstance (role : String)
  | ambiguousInstance (role : String)
  | indexError
  | unexpectedState (expected actual : String)
  | wrongOutput
  | interrupted
  | expectedState (expected actual : String)
  | lookupFailed
  | responseError (code : String)
  | moreThanOneVolume (name : String)
  | volumeNotAvailable (name : String)
  | volumeZoneMismatch (name zone expected : String)
  | volumeNotAttached (id : String)
  deriving Repr, DecidableEq

/-- `Box.__wait_transition`: starting from the currently observed `state`,
while the state is in `from_states` sleep one polling interval, re-fetch the
resource and re-read its state (successive re-reads are given by `future`).
Once a state outside `from_states` is observed, succeed if it is `to_state`
and fail with (expected, actual) otherwise.  Returns `none` if `future` is
exhausted while still polling; otherwise the outcome together with the number
of polling sleeps performed. -/
def wait_transition (from_states : List String) (to_state : String) :
    String → List String → Option (Except (String × String) Unit × Nat)
  | state, future =>
    if state ∈ from_states then
      match future with
      | [] => none
      | s :: rest =>
        (wait_transition from_states to_state s rest).map (fun r => (r.1, r.2 + 1))
    else if state = to_state then
      some (Except.ok (), 0)
    else
      some (Except.error (to_state, state), 0)

theorem wait_transition_not_from {from_states : List String} {to_state state : String}
    (future : List String) (h : state ∉ from_states) :
    wait_transition from_states to_state state future =
      (if state = to_state then some (Except.ok (), 0)
       else some (Except.error (to_state, state), 0)) := by
  rw [wait_transition.eq_def]
  simp only [if_neg h]

theorem wait_transition_from {from_states : List String} {to_state state : String}
    {s : String} {rest : List String} (h : state ∈ from_states) :
    wait_transition from_states to_state state (s :: rest) =
      (wait_transition from_states to_state s rest).map (fun r => (r.1, r.2 + 1)) := by
  rw [wait_transition.eq_def]
  simp [h]

/-- Helper for C5: if the full observation sequence splits as
`pre ++ s :: rest` where every state in `pre` is an anticipated transient
state and `s` is the first observation outside `from_states` and differs from
`to_state`, the waiter fails with exactly that pair after `pre.length`
sleeps — whatever `rest` holds. -/
theorem wait_transition_first_exit (from_states : List String) (to_state : String)
    (pre : List String) (s : String) (rest : List String)
    (hpre : ∀ x ∈ pre, x ∈ from_states) (hs : s ∉ from_states) (hts : s ≠ to_state) :
    ∀ state future, state :: future = pre ++ s :: rest →
      wait_transition from_states to_state state future =
        some (Except.error (to_state, s), pre.length) := by
  induction pre with
  | nil =>
    intro state future hsplit
    simp only [List.nil_append, List.cons.injEq] at hsplit
    obtain ⟨rfl, rfl⟩ := hsplit
    rw [wait_transition_not_from _ hs]
    simp [hts]
  | cons p ps ih =>
    intro state future hsplit
    simp only [List.cons_append, List.cons.injEq] at hsplit
    obtain ⟨rfl, rfl⟩ := hsplit
    have hp : state ∈ from_states := hpre state (List.mem_cons_self _ _)
    cases hq : ps ++ s :: rest with
    | nil => exact absurd hq (List.append_ne_nil_of_right_ne_nil _ (List.cons_ne_nil _ _))
    | cons q rest2 =>
      rw [wait_transition_from hp,
        ih (fun x hx => hpre x (List.mem_cons_of_mem _ hx)) q rest2 hq.symm]
      simp

/-- `Box.__wait_hostname_assigned`: read the instance's `public_dns_name`
(first the cached value, then the values successive `update()`s return); while
it is empty, sleep one polling interval and re-fetch.  Returns the assigned
host name and the number of sleeps, or `none` if the trace runs out while the
name is still empty. -/
def wait_hostname_assigned : String → List String → Option (String × Nat)
  | host_name, future =>
    if host_name ≠ "" then
      some (host_name, 0)
    else
      match future with
      | [] => none
      | h :: rest => (wait_hostname_assigned h rest).map (fun r => (r.1, r.2 + 1))

/-- `Box.__wait_ssh_port_open`: repeatedly attempt a TCP connection to port 22
with a timeout of one polling interval.  `true` in the trace is an attempt
that connects, `false` one that fails or times out.  Returns the number of
failed attempts before the first success (each failed attempt blocks through
up to one polling interval — the loop has no separate sleep), or `none` if
every attempt in the trace fails. -/
def wait_ssh_port_open : List Bool → Option Nat
  | [] => none
  | attempt :: rest =>
    if attempt then some 0 else (wait_ssh_port_open rest).map (· + 1)

/-- One iteration of `Box.__wait_ssh_working`, from the loop's point of view:
either the round-trip completed and `stdout.readline()` returned `line`
(`output line`), or connecting/executing raised `KeyboardInterrupt`
(`interrupt`), or it raised some other exception (`exn msg`), which the loop
logs and retries after one polling sleep. -/
inductive SshAttempt where
  | output (line : String)
  | interrupt
  | exn (msg : String)
  deriving Repr, DecidableEq

/-- `Box.__wait_ssh_working`: run `echo hi` over a fresh SSH session until its
first output line is exactly "hi\n".  A wrong output line raises
`RuntimeError`, which the `except RuntimeError: raise` clause re-raises — it is
fatal, not retried.  `KeyboardInterrupt` is re-raised as well.  Any other
exception is logged, and the loop sleeps one polling interval and retries.
Returns the outcome and the number of sleeps, `none` if the trace is exhausted
while still retrying. -/
def wait_ssh_working : List SshAttempt → Option (Except BoxErr Unit × Nat)
  | [] => none
  | SshAttempt.output line :: _ =>
    if line = "hi\n" then some (Except.ok (), 0) else some (Except.error BoxErr.wrongOutput, 0)
  | SshAttempt.interrupt :: _ => some (Except.error BoxErr.interrupted, 0)
  | SshAttempt.exn _ :: rest =>
    (wait_ssh_working rest).map (fun r => (r.1, r.2 + 1))

/-- Stages 2 and 3 of the readiness probe as run back-to-back by
`Box.__wait_ready`: first `__wait_ssh_port_open`, then `__wait_ssh_working`.
The cycle count is the sum of both stages' cycles. -/
def readiness_probe (port_attempts : List Bool) (ssh_attempts : List SshAttempt) :
    Option (Except BoxErr Unit × Nat) :=
  match wait_ssh_port_open port_attempts with
  | none => none
  | some n =>
    match wait_ssh_working ssh_attempts with
    | none => none
    | some (r, m) => some (r, n + m)

/-- The traces of provider-side observations consumed by one `__wait_ready`
call: the instance states seen by `__wait_transition`, the
`public_dns_name` values seen by `__wait_hostname_assigned`, the TCP
connection attempts and the SSH attempts. -/
structure ReadyTraces where
  states : List String
  hostnames : List String
  ports : List Bool
  ssh : List SshAttempt
  deriving Repr, DecidableEq

/-- `Box.__wait_ready`: wait for the state transition to `running`, then for a
public host name (which is stored in `self.host_name`), then for the TCP port,
then for a verified SSH round-trip.  Returns the post-state of the box
together with the raised error, if any; `none` if any stage polls past its
trace. -/
def wait_ready (b : Box) (inst : Instance) (from_states : List String)
    (tr : ReadyTraces) : Option (Box × Option BoxErr) :=
  match wait_transition from_states "running" inst.state tr.states with
  | none => none
  | some (Except.error (e, a), _) => some (b, some (BoxErr.unexpectedState e a))
  | some (Except.ok _, _) =>
    match wait_hostname_assigned inst.public_dns_name tr.hostnames with
    | none => none
    | some (h, _) =>
      let b1 := { b with host_name := some h }
      match readiness_probe tr.ports tr.ssh with
      | none => none
      | some (Except.error e, _) => some (b1, some e)
      | some (Except.ok _, _) => some (b1, none)

theorem wait_ssh_port_open_replicate (n : Nat) (rest : List Bool) :
    wait_ssh_port_open (List.replicate n false ++ true :: rest) = some n := by
  induction n with
  | zero => rfl
  | succ k ih => simp [List.replicate_succ, wait_ssh_port_open, ih]

theorem wait_ssh_working_exns (msgs : List String) (rest : List SshAttempt) :
    wait_ssh_working (msgs.map SshAttempt.exn ++ rest) =
      (wait_ssh_working rest).map (fun r => (r.1, r.2 + msgs.length)) := by
  induction msgs with
  | nil =>
    cases h : wait_ssh_working rest <;> simp [h]
  | cons m ms ih =>
    have hstep : wait_ssh_working (SshAttempt.exn m :: (ms.map SshAttempt.exn ++ rest)) =
        (wait_ssh_working (ms.map SshAttempt.exn ++ rest)).map (fun r => (r.1, r.2 + 1)) := rfl
    rw [List.map_cons, List.cons_append, hstep, ih]
    cases h : wait_ssh_working rest with
    | none => rfl
    | some r => simp [Nat.add_assoc]

/-- `Box.absolute_role`: the absolute name of this box's role, used as the
`Name` tag for instances. -/
def Box.absolute_role (b : Box) : String :=
  b.env.absolute_name b.role

/-- The ordering used by `Box.__list_instances`:
`instances.sort(key=attrgetter('launch_time'))`. -/
def launchLE (a b : Instance) : Prop :=
  a.launch_time ≤ b.launch_time

instance : DecidableRel launchLE :=
  fun a b => Nat.decLe a.launch_time b.launch_time

instance : IsTotal Instance launchLE :=
  ⟨fun a b => Nat.le_total a.launch_time b.launch_time⟩

instance : IsTrans Instance launchLE :=
  ⟨fun _ _ _ h1 h2 => Nat.le_trans h1 h2⟩

/-- The instances `Box.__list_instances` collects before sorting: the
provider-side filter by `tag:Name`, then the comprehension dropping
terminated instances. -/
def Box.matching_instances (b : Box) (p : EC2) : List Instance :=
  ((p.instances.filter (fun i => i.name_tag == some (Box.absolute_role b))).filter
    (fun i => i.state != "terminated"))

/-- `Box.__list_instances`: the absolute role name paired with the matching
non-terminated instances sorted ascending by launch time. -/
def Box.list_instances (b : Box) (p : EC2) : String × List Instance :=
  (Box.absolute_role b, (Box.matching_instances b p).insertionSort launchLE)

/-- `Box.__get_instance_by_ordinal`: index the launch-time-sorted matching
instances; error if none exist, or if the ordinal is omitted while more than
one exists (ambiguity is never silently resolved).  A non-`None` Python
ordinal that is out of range raises `IndexError` (negative indices, which
Python would accept, are not representable here). -/
def Box.get_instance_by_ordinal (b : Box) (p : EC2) (ordinal : Option Nat) :
    Except BoxErr Instance :=
  let role := (Box.list_instances b p).1
  let insts := (Box.list_instances b p).2
  if insts.isEmpty then
    Except.error (BoxErr.noInstance role)
  else
    match ordinal with
    | none =>
      if insts.length > 1 then
        Except.error (BoxErr.ambiguousInstance role)
      else
        match insts.head? with
        | some i => Except.ok i
        | none => Except.error (BoxErr.noInstance role)
    | some k =>
      match insts[k]? with
      | some i => Except.ok i
      | none => Except.error BoxErr.indexError

/-- `Box.adopt`: a no-op if an instance is already bound (the body is guarded
by `if self.instance_id is None:` with no else branch).  Otherwise resolve the
instance by ordinal — binding `instance_id` only after resolution succeeded —
and optionally wait until it is ready.  Returns the post-state of the box, the
provider calls issued and the raised error, if any. -/
def Box.adopt (b : Box) (p : EC2) (ordinal : Option Nat) (wait_ready_flag : Bool)
    (tr : ReadyTraces) : Option (Box × CallLog × Option BoxErr) :=
  match b.instance_id with
  | some _ => some (b, [], none)
  | none =>
    match Box.get_instance_by_ordinal b p ordinal with
    | Except.error e => some (b, [ProviderCall.getAllInstances], some e)
    | Except.ok inst =>
      let b1 := { b with instance_id := some inst.id }
      if wait_ready_flag then
        match wait_ready b1 inst ["pending"] tr with
        | none => none
        | some (b2, err) => some (b2, [ProviderCall.getAllInstances], err)
      else
        some (b1, [ProviderCall.getAllInstances], none)

/-- `Box.create`: raise if an instance is already bound, before any provider
interaction.  Otherwise run a fresh instance (`new_inst` stands for the
instance the provider launches), bind `instance_id`, tag it with the absolute
role name and wait for it to be ready starting from the `pending` state. -/
def Box.create (b : Box) (new_inst : Instance) (tr : ReadyTraces) :
    Option (Box × CallLog × Option BoxErr) :=
  match b.instance_id with
  | some _ => some (b, [], some BoxErr.alreadyBound)
  | none =>
    let b1 := { b with instance_id := some new_inst.id }
    let calls := [ProviderCall.runInstances,
                  ProviderCall.addTag "Name" (Box.absolute_role b)]
    match wait_ready b1 new_inst ["pending"] tr with
    | none => none
    | some (b2, err) => some (b2, calls, err)

/-- `Box.get_instance`: guarded by `@needs_instance`; a describe call
returning the bound instance (`unpack_singleton` failures are
`lookupFailed`). -/
def Box.get_instance (b : Box) (p : EC2) : CallLog × Except BoxErr Instance :=
  match b.instance_id with
  | none => ([], Except.error BoxErr.notSet)
  | some iid =>
    ([ProviderCall.getAllInstances],
      match p.instances.find? (fun i => i.id == iid) with
      | none => Except.error BoxErr.lookupFailed
      | some i => Except.ok i)

/-- `Box.__expect_state`: fetch the bound instance and raise unless it is in
the expected state. -/
def Box.expect_state (b : Box) (p : EC2) (expected : String) :
    CallLog × Except BoxErr Instance :=
  match Box.get_instance b p with
  | (calls, Except.error e) => (calls, Except.error e)
  | (calls, Except.ok inst) =>
    if inst.state ≠ expected then
      (calls, Except.error (BoxErr.expectedState expected inst.state))
    else
      (calls, Except.ok inst)

/-- `Box.stop`: `@needs_instance`; require the `running` state, issue
`stop_instances` and wait for the transition from running/stopping to
stopped.  The box itself is never mutated. -/
def Box.stop (b : Box) (p : EC2) (states : List String) :
    Option (Box × CallLog × Option BoxErr) :=
  match b.instance_id with
  | none => some (b, [], some BoxErr.notSet)
  | some _ =>
    match Box.expect_state b p "running" with
    | (calls, Except.error e) => some (b, calls, some e)
    | (calls, Except.ok inst) =>
      let calls := calls ++ [ProviderCall.stopInstances]
      match wait_transition ["running", "stopping"] "stopped" inst.state states with
      | none => none
      | some (Except.error (e, a), _) =>
        some (b, calls, some (BoxErr.unexpectedState e a))
      | some (Except.ok _, _) => some (b, calls, none)

/-- `Box.start`: `@needs_instance`; require the `stopped` state, issue
`start_instances` and wait until ready, anticipating both `stopped` and
`pending` as transient states. -/
def Box.start (b : Box) (p : EC2) (tr : ReadyTraces) :
    Option (Box × CallLog × Option BoxErr) :=
  match b.instance_id with
  | none => some (b, [], some BoxErr.notSet)
  | some _ =>
    match Box.expect_state b p "stopped" with
    | (calls, Except.error e) => some (b, calls, some e)
    | (calls, Except.ok inst) =>
      let calls := calls ++ [ProviderCall.startInstances]
      match wait_ready b inst ["stopped", "pending"] tr with
      | none => none
      | some (b2, err) => some (b2, calls, err)

/-- `Box.terminate`: NOT guarded by `@needs_instance` — on an unbound box the
`if self.instance_id is not None:` guard makes it a silent no-op.  On a bound,
non-terminated instance it issues `terminate_instances` and, if `wait` is set,
waits for the transition to `terminated`. -/
def Box.terminate (b : Box) (p : EC2) (wait : Bool) (states : List String) :
    Option (Box × CallLog × Option BoxErr) :=
  match b.instance_id with
  | none => some (b, [], none)
  | some _ =>
    match Box.get_instance b p with
    | (calls, Except.error e) => some (b, calls, some e)
    | (calls, Except.ok inst) =>
      if inst.state = "terminated" then
        some (b, calls, none)
      else
        let calls := calls ++ [ProviderCall.terminateInstances]
        if wait then
          match wait_transition ["running", "shutting-down", "stopped"] "terminated"
              inst.state states with
          | none => none
          | some (Except.error (e, a), _) =>
            some (b, calls, some (BoxErr.unexpectedState e a))
          | some (Except.ok _, _) => some (b, calls, none)
        else
          some (b, calls, none)

/-- Mirror of `boto.ec2.image.Image` restricted to what `box.py` reads. -/
structure Image where
  id : String
  state : String
  deriving Repr, DecidableEq

/-- One iteration of the `get_image` propagation-delay loop in
`Box.create_image`: the describe call either raises the provider's
`InvalidAMIID.NotFound` (swallowed and retried), raises some other response
error (propagated), or returns the image. -/
inductive GetImageResult where
  | notFoundYet
  | otherError (code : String)
  | found (img : Image)
  deriving Repr, DecidableEq

/-- The `while True: try get_image` loop of `Box.create_image`: retry for as
long as the provider answers `InvalidAMIID.NotFound`, propagate any other
response error, stop on the first successful describe. -/
def get_image_loop : List GetImageResult → Option (Except BoxErr Image)
  | [] => none
  | GetImageResult.found img :: _ => some (Except.ok img)
  | GetImageResult.notFoundYet :: rest => get_image_loop rest
  | GetImageResult.otherError code :: _ => some (Except.error (BoxErr.responseError code))

/-- `Box.create_image`: `@needs_instance`; require the `stopped` state,
request the image, poll `get_image` through the propagation delay, wait for
the `pending` to `available` transition and return the image id. -/
def Box.create_image (b : Box) (p : EC2) (image_id : String)
    (img_attempts : List GetImageResult) (states : List String) :
    Option (CallLog × Except BoxErr String) :=
  match b.instance_id with
  | none => some ([], Except.error BoxErr.notSet)
  | some _ =>
    match Box.expect_state b p "stopped" with
    | (calls, Except.error e) => some (calls, Except.error e)
    | (calls, Except.ok _) =>
      let calls := calls ++ [ProviderCall.createImage]
      match get_image_loop img_attempts with
      | none => none
      | some (Except.error e) => some (calls, Except.error e)
      | some (Except.ok img) =>
        match wait_transition ["pending"] "available" img.state states with
        | none => none
        | some (Except.error (e, a), _) =>
          some (calls, Except.error (BoxErr.unexpectedState e a))
        | some (Except.ok _, _) => some (calls, Except.ok image_id)

/-- `Box.attach_volume`: `@needs_instance`; issue `attach_volume`, wait for
the volume's `available` to `in-use` transition, then verify the
post-condition that the volume's reported attachment target
(`volume.attach_data.instance_id`, modelled by `attach_target` as observed
when the wait finishes) is this instance — a mismatch is a hard error even
though the state transition succeeded. -/
def Box.attach_volume (b : Box) (volume : Volume) (device : String)
    (status_trace : List String) (attach_target : Option String) :
    Option (CallLog × Except BoxErr Unit) :=
  match b.instance_id with
  | none => some ([], Except.error BoxErr.notSet)
  | some iid =>
    let calls := [ProviderCall.attachVolume]
    match wait_transition ["available"] "in-use" volume.status status_trace with
    | none => none
    | some (Except.error (e, a), _) =>
      some (calls, Except.error (BoxErr.unexpectedState e a))
    | some (Except.ok _, _) =>
      if attach_target ≠ some iid then
        some (calls, Except.error (BoxErr.volumeNotAttached volume.id))
      else
        some (calls, Except.ok ())

/-- `Box.get_attachable_volume`: absolutize the name (again, if the caller
already did), look up volumes by the `Name` tag; none → `None`, more than one
→ error, otherwise require the status `available` and the environment's
availability zone. -/
def Box.get_attachable_volume (b : Box) (p : EC2) (name : String) :
    CallLog × Except BoxErr (Option Volume) :=
  let n := b.env.absolute_name name
  let vols := p.volumes.filter (fun v => v.name_tag == some n)
  ([ProviderCall.getAllVolumes],
    if vols.length < 1 then Except.ok none
    else if vols.length > 1 then Except.error (BoxErr.moreThanOneVolume n)
    else
      match vols.head? with
      | none => Except.ok none
      | some volume =>
        if volume.status ≠ "available" then
          Except.error (BoxErr.volumeNotAvailable n)
        else if volume.zone ≠ b.env.availability_zone then
          Except.error (BoxErr.volumeZoneMismatch n volume.zone b.env.availability_zone)
        else
          Except.ok (some volume))

/-- Point update of one volume in the provider state, used to mirror the
status the polling observed and the `add_tag` call. -/
def EC2.update_volume (p : EC2) (vid : String) (f : Volume → Volume) : EC2 :=
  { p with volumes := p.volumes.map (fun v => if v.id == vid then f v else v) }

/-- `Box.get_or_create_volume`: absolutize the name, look the volume up via
`get_attachable_volume` (which absolutizes once more); if absent, create a
volume of the requested size in the environment's zone (`fresh_id` stands for
the id the provider assigns), wait for `creating` to `available`, tag it, and
re-resolve through `get_attachable_volume` for a consistent view.  Returns the
provider post-state, the calls issued and the result. -/
def Box.get_or_create_volume (b : Box) (p : EC2) (name : String) (size : Nat)
    (fresh_id : String) (status_trace : List String) :
    Option (EC2 × CallLog × Except BoxErr (Option Volume)) :=
  let n := b.env.absolute_name name
  match Box.get_attachable_volume b p n with
  | (c1, Except.error e) => some (p, c1, Except.error e)
  | (c1, Except.ok (some volume)) => some (p, c1, Except.ok (some volume))
  | (c1, Except.ok none) =>
    let zone := b.env.availability_zone
    let v0 : Volume :=
      { id := fresh_id, status := "creating", zone := zone, name_tag := none, size := size }
    let p1 : EC2 := { p with volumes := p.volumes ++ [v0] }
    let c2 := c1 ++ [ProviderCall.createVolume]
    match wait_transition ["creating"] "available" v0.status status_trace with
    | none => none
    | some (Except.error (e, a), _) =>
      some (p1, c2, Except.error (BoxErr.unexpectedState e a))
    | some (Except.ok _, _) =>
      let p2 := (p1.update_volume fresh_id (fun v => { v with status := "available" })).update_volume
        fresh_id (fun v => { v with name_tag := some n })
      let c3 := c2 ++ [ProviderCall.addTag "Name" n]
      match Box.get_attachable_volume b p2 n with
      | (c4, Except.error e) => some (p2, c3 ++ c4, Except.error e)
      | (c4, Except.ok r) => some (p2, c3 ++ c4, Except.ok r)

/-- Two permutations of one another that are both sorted by a key, with the
keys pairwise distinct, are equal: sorting a listing by launch time yields a
result independent of the listing order. -/
theorem sorted_distinct_perm_eq (key : Instance → Nat) :
    ∀ l1 l2 : List Instance, l1.Perm l2 →
      l1.Pairwise (fun a b => key a ≤ key b) →
      l2.Pairwise (fun a b => key a ≤ key b) →
      l1.Pairwise (fun a b => key a ≠ key b) →
      l1 = l2 := by
  intro l1
  induction l1 with
  | nil =>
    intro l2 hp _ _ _
    exact (hp.symm.eq_nil).symm
  | cons a t1 ih =>
    intro l2 hp hs1 hs2 hd
    cases l2 with
    | nil => exact absurd hp.eq_nil (List.cons_ne_nil a t1)
    | cons c t2 =>
      have hab : a = c := by
        by_contra hne
        have ha2 : a ∈ t2 := by
          rcases List.mem_cons.mp (hp.mem_iff.mp (List.mem_cons_self a t1)) with h | h
          · exact absurd h hne
          · exact h
        have hb1 : c ∈ t1 := by
          rcases List.mem_cons.mp (hp.mem_iff.mpr (List.mem_cons_self c t2)) with h | h
          · exact absurd h.symm hne
          · exact h
        have h1 : key a ≤ key c := (List.pairwise_cons.mp hs1).1 c hb1
        have h2 : key c ≤ key a := (List.pairwise_cons.mp hs2).1 a ha2
        exact (List.pairwise_cons.mp hd).1 c hb1 (Nat.le_antisymm h1 h2)
      subst hab
      rw [ih t2 hp.cons_inv (List.pairwise_cons.mp hs1).2 (List.pairwise_cons.mp hs2).2
        (List.pairwise_cons.mp hd).2]

/-! Concrete fixtures used by the witnesses and counterexamples. -/

def env0 : Env :=
  { region := "us-west-1", availability_zone := "us-west-1a", ns := "ns" }

/-- An unbound box. -/
def box0 : Box :=
  { env := env0, role := "foo-box", instance_id := none, host_name := none }

/-- A box already bound to instance "i-1". -/
def box1 : Box :=
  { env := env0, role := "foo-box", instance_id := some "i-1", host_name := none }

def ec2_0 : EC2 :=
  { instances := [], volumes := [] }

def traces0 : ReadyTraces :=
  { states := [], hostnames := [], ports := [], ssh := [] }

def inst1 : Instance :=
  { id := "i-9", state := "pending", launch_time := 0, name_tag := none,
    public_dns_name := "" }

def vol1 : Volume :=
  { id := "vol-1", status := "available", zone := "us-west-1a", name_tag := none,
    size := 20 }

def instA : Instance :=
  { id := "i-a", state := "running", launch_time := 10, name_tag := some "ns-foo-box",
    public_dns_name := "a.example.com" }

def instB : Instance :=
  { id := "i-b", state := "running", launch_time := 20, name_tag := some "ns-foo-box",
    public_dns_name := "b.example.com" }

def instC : Instance :=
  { id := "i-c", state := "stopped", launch_time := 30, name_tag := some "ns-foo-box",
    public_dns_name := "c.example.com" }

/-- Three non-terminated instances of `box0`'s role, listed by the provider in
an order that is not the launch-time order. -/
def ec2_1 : EC2 :=
  { instances := [instC, instA, instB], volumes := [] }

def volD1 : Volume :=
  { id := "vol-2", status := "available", zone := "us-west-1a",
    name_tag := some "ns-data", size := 20 }

def volD2 : Volume :=
  { id := "vol-3", status := "available", zone := "us-west-1a",
    name_tag := some "ns-data", size := 20 }

/-- A provider state with two volumes carrying the same `Name` tag. -/
def ec2_2 : EC2 :=
  { instances := [], volumes := [volD1, volD2] }

/-! ## Claims -/

/-- C4: for every waiter configuration whose target state is not among the
anticipated transient states (true of every call site), `__wait_transition`
called when the resource's current state already equals `to_state` returns
success immediately, with zero polling sleeps and no error, whatever the
subsequent observations would have been. -/
theorem C4_wait_transition_immediate (from_states : List String) (to_state : String)
    (future : List String) (h : to_state ∉ from_states) :
    wait_transition from_states to_state to_state future = some (Except.ok (), 0) := by
  rw [wait_transition_not_from future h]
  simp

theorem C4_witness :
    wait_transition ["pending"] "running" "running" ["stopped"] = some (Except.ok (), 0) :=
  C4_wait_transition_immediate ["pending"] "running" ["stopped"] (by decide)

/-- C5: whenever the observation sequence of `__wait_transition` splits into a
block `pre` of anticipated transient states followed by a first observation
`s` outside `from_states` that differs from `to_state`, the waiter raises
`UnexpectedStateError` carrying exactly (`to_state`, `s`), after exactly
`pre.length` polling sleeps, and the observations `rest` beyond `s` are never
consulted (the conclusion holds for every `rest`): the failure is raised once,
deterministically, on the first out-of-set observation. -/
theorem C5_first_unexpected (from_states : List String) (to_state state s : String)
    (future pre rest : List String)
    (hsplit : state :: future = pre ++ s :: rest)
    (hpre : ∀ x ∈ pre, x ∈ from_states) (hs : s ∉ from_states) (hts : s ≠ to_state) :
    wait_transition from_states to_state state future =
      some (Except.error (to_state, s), pre.length) :=
  wait_transition_first_exit from_states to_state pre s rest hpre hs hts state future hsplit

theorem C5_witness :
    wait_transition ["pending"] "running" "pending" ["pending", "terminated", "stopped"] =
      some (Except.error ("running", "terminated"), 2) :=
  C5_first_unexpected ["pending"] "running" "pending" "terminated"
    ["pending", "terminated", "stopped"] ["pending", "pending"] ["stopped"]
    rfl (by decide) (by decide) (by decide)

/-- C1, counterexample: the port is reachable immediately (N = 0) and the
no-op command returns the wrong output on its first attempt and the expected
output on its second (M = 1).  The claim predicts the probe treats the wrong
output as retryable and returns success; the code raises the re-raised
`RuntimeError` on the first wrong output instead of retrying, so the probe
fails rather than returning success. -/
theorem C1_counterexample :
    readiness_probe [true] [SshAttempt.output "bogus\n", SshAttempt.output "hi\n"] =
      some (Except.error BoxErr.wrongOutput, 0) := by
  rfl

/-- C1, amended: a wrong output from the no-op command is fatal — the probe
raises on the attempt that first returns it (left conjunct, for every number
of port-polling cycles and preceding retryable exceptions).  Only exceptions
other than the wrong-output `RuntimeError` and `KeyboardInterrupt` are
retryable: if the TCP port becomes reachable only after N polling cycles and
the first M command attempts fail with retryable exceptions, the exact
expected output being returned thereafter, the probe blocks through exactly
N + M polling cycles and then returns success (right conjunct). -/
theorem C1_probe_behaviour :
    (∀ (n : Nat) (msgs : List String) (line : String) (rest : List SshAttempt),
      line ≠ "hi\n" →
      readiness_probe (List.replicate n false ++ [true])
          (msgs.map SshAttempt.exn ++ SshAttempt.output line :: rest) =
        some (Except.error BoxErr.wrongOutput, n + msgs.length)) ∧
    (∀ (n : Nat) (msgs : List String) (rest : List SshAttempt),
      readiness_probe (List.replicate n false ++ [true])
          (msgs.map SshAttempt.exn ++ SshAttempt.output "hi\n" :: rest) =
        some (Except.ok (), n + msgs.length)) := by
  constructor
  · intro n msgs line rest hline
    rw [readiness_probe, wait_ssh_port_open_replicate, wait_ssh_working_exns]
    simp [wait_ssh_working, hline]
  · intro n msgs rest
    rw [readiness_probe, wait_ssh_port_open_replicate, wait_ssh_working_exns]
    simp [wait_ssh_working]

theorem C1_witness :
    readiness_probe [true] [SshAttempt.output "bye\n"] =
        some (Except.error BoxErr.wrongOutput, 0) ∧
    readiness_probe [false, false, true] [SshAttempt.exn "x", SshAttempt.output "hi\n"] =
        some (Except.ok (), 3) :=
  ⟨C1_probe_behaviour.1 0 [] "bye\n" [] (by decide),
   C1_probe_behaviour.2 2 ["x"] []⟩

/-- C2, counterexample: `adopt` on a box that is already bound does NOT raise —
the whole body of `Box.adopt` sits under `if self.instance_id is None:` with
no else branch, so the call silently returns, leaving the binding unchanged
and issuing no provider call.  The claim's assertion that `adopt` raises a
`PreconditionError` is therefore false. -/
theorem C2_counterexample :
    Box.adopt box1 ec2_0 none true traces0 = some (box1, [], none) := by
  rfl

/-- C2, amended: on a Box whose `instance_id` is already bound, `create`
raises `PreconditionError` ("Instance already adopted or created"), and
`adopt` silently does nothing; neither call rebinds the Box (the post-state is
the unchanged box) and neither contacts the provider (the call log is
empty). -/
theorem C2_create_adopt_bound (b : Box) (iid : String) (new_inst : Instance)
    (tr tr2 : ReadyTraces) (p : EC2) (ordinal : Option Nat) (w : Bool)
    (hb : b.instance_id = some iid) :
    Box.create b new_inst tr = some (b, [], some BoxErr.alreadyBound) ∧
    Box.adopt b p ordinal w tr2 = some (b, [], none) := by
  constructor
  · rw [Box.create.eq_def, hb]
  · rw [Box.adopt.eq_def, hb]

theorem C2_witness :
    Box.create box1 inst1 traces0 = some (box1, [], some BoxErr.alreadyBound) ∧
    Box.adopt box1 ec2_0 none false traces0 = some (box1, [], none) :=
  C2_create_adopt_bound box1 "i-1" inst1 traces0 traces0 ec2_0 none false rfl

/-- C3, counterexample: `terminate` on an unbound Box does NOT raise — it has
no `@needs_instance` decorator and its body is guarded by
`if self.instance_id is not None:`, so the call is a silent no-op (no error,
no provider call).  The claim's assertion that every mutating operation other
than create/adopt, terminate included, raises a `PreconditionError` is
therefore false. -/
theorem C3_counterexample :
    Box.terminate box0 ec2_0 true [] = some (box0, [], none) := by
  rfl

/-- C3, amended: on a Box whose `instance_id` is unset, the `@needs_instance`
operations — `start`, `stop`, `create_image` and `attach_volume` — raise
`PreconditionError` ("Instance ID not set") before any effect (empty call log,
unchanged box), while `terminate` silently does nothing (no error, no provider
call, unchanged box). -/
theorem C3_unbound_ops (b : Box) (p : EC2) (states1 : List String) (tr : ReadyTraces)
    (image_id : String) (img_attempts : List GetImageResult) (states2 : List String)
    (volume : Volume) (device : String) (status_trace : List String)
    (attach_target : Option String) (wait : Bool) (states3 : List String)
    (hb : b.instance_id = none) :
    Box.stop b p states1 = some (b, [], some BoxErr.notSet) ∧
    Box.start b p tr = some (b, [], some BoxErr.notSet) ∧
    Box.create_image b p image_id img_attempts states2 =
      some ([], Except.error BoxErr.notSet) ∧
    Box.attach_volume b volume device status_trace attach_target =
      some ([], Except.error BoxErr.notSet) ∧
    Box.terminate b p wait states3 = some (b, [], none) := by
  refine ⟨?_, ?_, ?_, ?_, ?_⟩
  · rw [Box.stop.eq_def, hb]
  · rw [Box.start.eq_def, hb]
  · rw [Box.create_image.eq_def, hb]
  · rw [Box.attach_volume.eq_def, hb]
  · rw [Box.terminate.eq_def, hb]

theorem C3_witness :
    Box.stop box0 ec2_0 [] = some (box0, [], some BoxErr.notSet) ∧
    Box.start box0 ec2_0 traces0 = some (box0, [], some BoxErr.notSet) ∧
    Box.create_image box0 ec2_0 "ami-1" [] [] = some ([], Except.error BoxErr.notSet) ∧
    Box.attach_volume box0 vol1 "/dev/sdf" [] none = some ([], Except.error BoxErr.notSet) ∧
    Box.terminate box0 ec2_0 false [] = some (box0, [], none) :=
  C3_unbound_ops box0 ec2_0 [] traces0 "ami-1" [] [] vol1 "/dev/sdf" [] none false [] rfl

/-- C9: when the waited-for transition of `attach_volume` succeeds — the
provider reports the volume's status reached `in-use` — but the volume's
reported attachment target differs from the calling box's instance id, the
operation raises the post-condition error ("Volume ... is not attached to this
instance") even though the state transition itself succeeded. -/
theorem C9_attach_volume_postcondition (b : Box) (volume : Volume) (device : String)
    (status_trace : List String) (attach_target : Option String) (iid : String) (k : Nat)
    (hb : b.instance_id = some iid)
    (hw : wait_transition ["available"] "in-use" volume.status status_trace =
      some (Except.ok (), k))
    (ht : attach_target ≠ some iid) :
    Box.attach_volume b volume device status_trace attach_target =
      some ([ProviderCall.attachVolume], Except.error (BoxErr.volumeNotAttached volume.id)) := by
  rw [Box.attach_volume.eq_def, hb]
  rw [hw]
  simp [ht]

theorem C9_witness :
    Box.attach_volume box1 vol1 "/dev/sdf" ["in-use"] (some "i-2") =
      some ([ProviderCall.attachVolume], Except.error (BoxErr.volumeNotAttached "vol-1")) :=
  C9_attach_volume_postcondition box1 vol1 "/dev/sdf" ["in-use"] (some "i-2") "i-1" 1
    rfl (by rfl) (by decide)

/-- C6: for every provider listing whose non-terminated role-matching
instances form a permutation of a launch-time-sorted list `L` with pairwise
distinct launch times, `adopt(ordinal=k)` binds `instance_id` to the id of
`L[k]` — the (k+1)-th oldest surviving instance — independently of the order
in which the provider listed them. -/
theorem C6_adopt_by_ordinal (b : Box) (p : EC2) (k : Nat) (L : List Instance)
    (inst : Instance) (tr : ReadyTraces)
    (hub : b.instance_id = none)
    (hperm : (Box.matching_instances b p).Perm L)
    (hsort : L.Pairwise launchLE)
    (hdist : L.Pairwise (fun a c => a.launch_time ≠ c.launch_time))
    (hk : L[k]? = some inst) :
    Box.adopt b p (some k) false tr =
      some ({ b with instance_id := some inst.id },
        [ProviderCall.getAllInstances], none) := by
  have hperm2 : ((Box.matching_instances b p).insertionSort launchLE).Perm L :=
    (List.perm_insertionSort launchLE (Box.matching_instances b p)).trans hperm
  have hdist2 : ((Box.matching_instances b p).insertionSort launchLE).Pairwise
      (fun a c => a.launch_time ≠ c.launch_time) :=
    (hperm2.pairwise_iff (fun {_ _} h => Ne.symm h)).mpr hdist
  have heq : (Box.matching_instances b p).insertionSort launchLE = L :=
    sorted_distinct_perm_eq (fun i => i.launch_time) _ L hperm2
      (List.sorted_insertionSort launchLE (Box.matching_instances b p)) hsort hdist2
  have hne : L.isEmpty = false := by
    cases L with
    | nil => simp at hk
    | cons x xs => rfl
  have hres : Box.get_instance_by_ordinal b p (some k) = Except.ok inst := by
    simp [Box.get_instance_by_ordinal, Box.list_instances, heq, hne, hk]
  rw [Box.adopt.eq_def, hub, hres]
  simp

theorem C6_witness :
    Box.adopt box0 ec2_1 (some 1) false traces0 =
      some ({ box0 with instance_id := some "i-b" },
        [ProviderCall.getAllInstances], none) :=
  C6_adopt_by_ordinal box0 ec2_1 1 [instA, instB, instC] instB traces0
    rfl (by decide) (by decide) (by decide) rfl

/-- C7: whenever two or more non-terminated instances match the role,
`adopt` called with the ordinal omitted raises `AmbiguityError` ("More than
one instance performing role ...") and binds nothing: the post-state is the
unchanged box, whose `instance_id` is still unset (the error is raised inside
ordinal resolution, before the assignment to `self.instance_id`). -/
theorem C7_adopt_ambiguity (b : Box) (p : EC2) (w : Bool) (tr : ReadyTraces)
    (hub : b.instance_id = none)
    (hlen : 1 < (Box.matching_instances b p).length) :
    Box.adopt b p none w tr =
      some (b, [ProviderCall.getAllInstances],
        some (BoxErr.ambiguousInstance (Box.absolute_role b))) := by
  have hlen2 : 1 < ((Box.matching_instances b p).insertionSort launchLE).length := by
    rw [(List.perm_insertionSort launchLE (Box.matching_instances b p)).length_eq]
    exact hlen
  have hne : ((Box.matching_instances b p).insertionSort launchLE).isEmpty = false := by
    cases h : (Box.matching_instances b p).insertionSort launchLE with
    | nil =>
      rw [h] at hlen2
      simp at hlen2
    | cons x xs => rfl
  have hres : Box.get_instance_by_ordinal b p none =
      Except.error (BoxErr.ambiguousInstance (Box.absolute_role b)) := by
    simp [Box.get_instance_by_ordinal, Box.list_instances, hne, hlen2, hlen]
  rw [Box.adopt.eq_def, hub, hres]

theorem C7_witness :
    Box.adopt box0 ec2_1 none true traces0 =
      some (box0, [ProviderCall.getAllInstances],
        some (BoxErr.ambiguousInstance "ns-foo-box")) :=
  C7_adopt_ambiguity box0 ec2_1 true traces0 rfl (by decide)

/-- The point update performed by `EC2.update_volume` touches exactly the
freshly created volume when every pre-existing volume has a different id. -/
theorem map_update_append (vs : List Volume) (w : Volume) (f : Volume → Volume)
    (fid : String) (hvs : ∀ v ∈ vs, v.id ≠ fid) (hw : w.id = fid) :
    (vs ++ [w]).map (fun v => if v.id == fid then f v else v) = vs ++ [f w] := by
  rw [List.map_append]
  congr 1
  · have : ∀ v ∈ vs, (fun v : Volume => if v.id == fid then f v else v) v = id v := by
      intro v hv
      simp [hvs v hv]
    rw [List.map_congr_left this, List.map_id]
  · simp [hw]

/-- The volume that `get_or_create_volume` has created, waited on, and tagged
once its creation branch finishes. -/
def created_volume (b : Box) (name : String) (size : Nat) (fresh_id : String) : Volume :=
  { id := fresh_id, status := "available", zone := b.env.availability_zone,
    name_tag := some (b.env.absolute_name name), size := size }

/-- C8: `get_or_create_volume` is idempotent.  Starting from a provider with
no volume tagged with the absolute name and no volume carrying the fresh id,
a first call (whose creation wait succeeds) creates the volume, tags it and
returns it; a second call against the resulting provider state — with any
fresh id and any trace, since neither is consulted — returns the identical
volume (same id) while issuing only a lookup; exactly one create-volume
request is made across the two calls. -/
theorem C8_get_or_create_volume_idempotent (b : Box) (p : EC2) (name : String)
    (size : Nat) (fresh_id fresh_id2 : String) (status_trace status_trace2 : List String)
    (k : Nat)
    (hempty : p.volumes.filter
      (fun v => v.name_tag == some (b.env.absolute_name name)) = [])
    (hid : ∀ v ∈ p.volumes, v.id ≠ fresh_id)
    (hwait : wait_transition ["creating"] "available" "creating" status_trace =
      some (Except.ok (), k)) :
    Box.get_or_create_volume b p name size fresh_id status_trace =
      some ({ p with volumes := p.volumes ++ [created_volume b name size fresh_id] },
        [ProviderCall.getAllVolumes, ProviderCall.createVolume,
         ProviderCall.addTag "Name" (b.env.absolute_name name),
         ProviderCall.getAllVolumes],
        Except.ok (some (created_volume b name size fresh_id))) ∧
    Box.get_or_create_volume b
        { p with volumes := p.volumes ++ [created_volume b name size fresh_id] }
        name size fresh_id2 status_trace2 =
      some ({ p with volumes := p.volumes ++ [created_volume b name size fresh_id] },
        [ProviderCall.getAllVolumes],
        Except.ok (some (created_volume b name size fresh_id))) ∧
    ([ProviderCall.getAllVolumes, ProviderCall.createVolume,
      ProviderCall.addTag "Name" (b.env.absolute_name name),
      ProviderCall.getAllVolumes] ++ [ProviderCall.getAllVolumes]).count
        ProviderCall.createVolume = 1 := by
  have hn : b.env.absolute_name (b.env.absolute_name name) = b.env.absolute_name name :=
    Env.absolute_name_idem b.env name
  have hfilter_created : ∀ vs : List Volume,
      vs.filter (fun v => v.name_tag == some (b.env.absolute_name name)) = [] →
      (vs ++ [created_volume b name size fresh_id]).filter
          (fun v => v.name_tag == some (b.env.absolute_name name)) =
        [created_volume b name size fresh_id] := by
    intro vs hvs
    rw [List.filter_append, hvs]
    simp [created_volume]
  have h1 : Box.get_attachable_volume b p (b.env.absolute_name name) =
      ([ProviderCall.getAllVolumes], Except.ok none) := by
    simp [Box.get_attachable_volume, hn, hempty]
  have h2 : Box.get_attachable_volume b
      { p with volumes := p.volumes ++ [created_volume b name size fresh_id] }
      (b.env.absolute_name name) =
      ([ProviderCall.getAllVolumes], Except.ok (some (created_volume b name size fresh_id))) := by
    simp only [Box.get_attachable_volume, hn]
    rw [hfilter_created p.volumes hempty]
    simp [created_volume]
  have hp2 : EC2.update_volume
      (EC2.update_volume
        { p with volumes := p.volumes ++
            [{ id := fresh_id, status := "creating", zone := b.env.availability_zone,
               name_tag := none, size := size }] }
        fresh_id (fun v => { v with status := "available" }))
      fresh_id (fun v => { v with name_tag := some (b.env.absolute_name name) }) =
      { p with volumes := p.volumes ++ [created_volume b name size fresh_id] } := by
    simp only [EC2.update_volume]
    rw [map_update_append p.volumes _ _ fresh_id hid rfl]
    rw [map_update_append p.volumes _ _ fresh_id hid rfl]
    rfl
  refine ⟨?_, ?_, ?_⟩
  · simp only [Box.get_or_create_volume, h1, hwait]
    rw [hp2, h2]
    rfl
  · simp only [Box.get_or_create_volume, h2]
  · rfl

theorem C8_witness :
    Box.get_or_create_volume box0 ec2_0 "data" 20 "vol-9" ["available"] =
      some ({ ec2_0 with volumes :=
            ec2_0.volumes ++ [created_volume box0 "data" 20 "vol-9"] },
        [ProviderCall.getAllVolumes, ProviderCall.createVolume,
         ProviderCall.addTag "Name" (box0.env.absolute_name "data"),
         ProviderCall.getAllVolumes],
        Except.ok (some (created_volume box0 "data" 20 "vol-9"))) ∧
    Box.get_or_create_volume box0
        { ec2_0 with volumes :=
            ec2_0.volumes ++ [created_volume box0 "data" 20 "vol-9"] }
        "data" 20 "vol-10" [] =
      some ({ ec2_0 with volumes :=
            ec2_0.volumes ++ [created_volume box0 "data" 20 "vol-9"] },
        [ProviderCall.getAllVolumes],
        Except.ok (some (created_volume box0 "data" 20 "vol-9"))) ∧
    ([ProviderCall.getAllVolumes, ProviderCall.createVolume,
      ProviderCall.addTag "Name" (box0.env.absolute_name "data"),
      ProviderCall.getAllVolumes] ++ [ProviderCall.getAllVolumes]).count
        ProviderCall.createVolume = 1 :=
  C8_get_or_create_volume_idempotent box0 ec2_0 "data" 20 "vol-9" "vol-10"
    ["available"] [] 1 rfl (by simp [ec2_0]) rfl

/-- C10 (implicit): whenever more than one volume carries the requested
absolute name tag, the lookup raises ("More than one EBS volume named ...")
instead of silently picking one — both when `get_attachable_volume` is called
directly and on the lookup path of `get_or_create_volume`, which then makes no
create-volume call and leaves the provider unchanged. -/
theorem C10_duplicate_named_volumes (b : Box) (p : EC2) (name : String) (size : Nat)
    (fresh_id : String) (status_trace : List String)
    (hdup : 1 < (p.volumes.filter
      (fun v => v.name_tag == some (b.env.absolute_name name))).length) :
    Box.get_attachable_volume b p name =
      ([ProviderCall.getAllVolumes],
        Except.error (BoxErr.moreThanOneVolume (b.env.absolute_name name))) ∧
    Box.get_or_create_volume b p name size fresh_id status_trace =
      some (p, [ProviderCall.getAllVolumes],
        Except.error (BoxErr.moreThanOneVolume (b.env.absolute_name name))) := by
  have hn : b.env.absolute_name (b.env.absolute_name name) = b.env.absolute_name name :=
    Env.absolute_name_idem b.env name
  have h0 : ¬ (p.volumes.filter
      (fun v => v.name_tag == some (b.env.absolute_name name))).length < 1 := by
    omega
  have hga2 : Box.get_attachable_volume b p (b.env.absolute_name name) =
      ([ProviderCall.getAllVolumes],
        Except.error (BoxErr.moreThanOneVolume (b.env.absolute_name name))) := by
    simp [Box.get_attachable_volume, hn, h0, hdup]
  refine ⟨?_, ?_⟩
  · simp [Box.get_attachable_volume, h0, hdup]
  · simp only [Box.get_or_create_volume, hga2]

theorem C10_witness :
    Box.get_attachable_volume box0 ec2_2 "data" =
      ([ProviderCall.getAllVolumes],
        Except.error (BoxErr.moreThanOneVolume (box0.env.absolute_name "data"))) ∧
    Box.get_or_create_volume box0 ec2_2 "data" 20 "vol-9" [] =
      some (ec2_2, [ProviderCall.getAllVolumes],
        Except.error (BoxErr.moreThanOneVolume (box0.env.absolute_name "data"))) :=
  C10_duplicate_named_volumes box0 ec2_2 "data" 20 "vol-9" [] (by decide)

end CGCloud
